import Mathlib

/-!
Shallow embedding of the logging and daemonization subsystem of ices0
(`src/log.c`), and proofs of the specification claims about it.

Modelling conventions:
* C strings are Lean `String`s; a possibly-NULL `char *` is `Option String`.
* A `FILE *` handle is a `Handle`: an identifier plus the OS-level fact of
  whether the underlying descriptor is a FIFO (what `fstat`/`S_ISFIFO`
  observes).  A possibly-NULL `FILE *` is `Option Handle`.
* The mutable module state (`ices_config`'s fields read or written by
  `log.c`, plus the `lasterror` buffer) is the `LogState` structure,
  threaded explicitly.
* Calls into the OS (fopen, popen, freopen, dup2, fstat) are resolved by
  explicit environment records (`FsEnv`, `RedirectEnv`, `DaemonEnv`),
  so that both the success and failure branches of the C code are covered.
* Externally visible actions that do not change `LogState` (closing
  handles, writing to streams, descriptor redirection) are recorded as a
  trace of `Event`s.
* `snprintf(buf, len, ...)` truncation is modelled by keeping the first
  `len - 1` characters of the formatted string; `printf`-style `%s`
  substitution is `sprintf1`.
-/

/-- An OS-level output handle (`FILE *`).  `isFifo` is the property of the
underlying descriptor that `fstat` + `S_ISFIFO` reports: `true` for a
`popen` pipe, `false` for a regular file. -/
structure Handle where
  id : Nat
  isFifo : Bool
deriving DecidableEq, Repr

/-- The fields of the global `ices_config_t` that `log.c` reads or writes:
`base_directory` (possibly NULL string), `daemon`, `verbose`, and the
mutable sink slot `logfile` (possibly NULL `FILE *`). -/
structure IcesConfig where
  base_directory : Option String
  daemon : Bool
  verbose : Bool
  logfile : Option Handle
deriving DecidableEq, Repr

/-- Module state of `log.c`: the shared config plus the static
`lasterror` buffer. -/
structure LogState where
  cfg : IcesConfig
  lasterror : String
deriving DecidableEq, Repr

/-- Observable actions performed by the subsystem that do not live in
`LogState`: closing handles, stream writes, descriptor redirection. -/
inductive Event where
  /-- a call to the external generic close helper `ices_util_fclose(h)` -/
  | utilFclose (h : Handle)
  /-- a direct `pclose(h)` -/
  | pcloseEv (h : Handle)
  /-- a direct `fclose(h)` -/
  | fcloseEv (h : Handle)
  /-- a write of `s` to the sink handle `h` (`fprintf(logfile, ...)`) -/
  | writeSink (h : Handle) (s : String)
  /-- a write of `s` to the console (`fprintf(stdout, ...)` / `printf`) -/
  | writeConsole (s : String)
  /-- successful `dup2(fileno(h), fileno(stdout))` -/
  | dup2Stdout (h : Handle)
  /-- successful `dup2(fileno(h), fileno(stderr))` -/
  | dup2Stderr (h : Handle)
  /-- `freopen("/dev/tty", "w", stdout)` -/
  | freopenTty
  /-- `freopen("/dev/null", "r", stdin)` -/
  | stdinNull
  /-- `freopen("/dev/null", "w", stdout)` -/
  | stdoutNull
  /-- `freopen("/dev/null", "w", stderr)` -/
  | stderrNull
deriving DecidableEq, Repr

/-- Modelled from the spec: `BUFSIZE`, the capacity of the fixed message
buffers, comes from `definitions.h` which is not part of the excerpt; the
spec describes the last-error slot as a "fixed-capacity string buffer,
e.g. 1024 bytes". -/
def BUFSIZE : Nat := 1024

/-- `static const int LOG_FILENAME_LEN = 1024;` -/
def LOG_FILENAME_LEN : Nat := 1024

/-- `static const int ERR_BUFF_LEN = 1024;` -/
def ERR_BUFF_LEN : Nat := 1024

/-- `snprintf`/`vsnprintf` into a buffer of size `len`: at most `len - 1`
characters of the formatted string are kept. -/
def truncFmt (len : Nat) (s : String) : String :=
  ⟨s.data.take (len - 1)⟩

/-- `printf`-style formatting with `%s` holes: successive occurrences of
`%s` in the format consume successive arguments.  (All format directives
used by `log.c` are `%s`.) -/
def substArgs : List Char → List String → List Char
  | [], _ => []
  | '%' :: 's' :: rest, a :: as => a.data ++ substArgs rest as
  | '%' :: 's' :: rest, [] => '%' :: 's' :: substArgs rest []
  | c :: rest, as => c :: substArgs rest as

/-- `sprintf(out, fmt, args...)` for formats whose directives are `%s`. -/
def sprintfN (fmt : String) (args : List String) : String :=
  ⟨substArgs fmt.data args⟩

/-- One-argument special case of `sprintfN`. -/
def sprintf1 (fmt arg : String) : String :=
  sprintfN fmt [arg]

/-- `ices_log_error`: formats the message into a `BUFSIZE` buffer
(`vsnprintf` truncation) and copies it into the static `lasterror`
buffer.  Pure state update, no output. -/
def ices_log_error (st : LogState) (msg : String) : LogState :=
  { st with lasterror := truncFmt BUFSIZE msg }

/-- `ices_log_get_error`: returns the `lasterror` buffer. -/
def ices_log_get_error (st : LogState) : String :=
  st.lasterror

/-- `ices_log_string` (the branch compiled without `REDIRECT_LOGGING`):
writes `sprintf1 fmt s` to the sink when one is open, and additionally to
the console when not daemonized.  Touches no state. -/
def ices_log_string (st : LogState) (fmt s : String) : List Event :=
  (match st.cfg.logfile with
   | some h => [Event.writeSink h (sprintf1 fmt s)]
   | none => []) ++
  (if !st.cfg.daemon then [Event.writeConsole (sprintf1 fmt s)] else [])

/-- `ices_log_string` as compiled with `REDIRECT_LOGGING`: a plain
`printf(format, string)` to stdout. -/
def ices_log_string_redirect (fmt s : String) : List Event :=
  [Event.writeConsole (sprintf1 fmt s)]

/-- `ices_log`: formats into a `BUFSIZE` buffer and dispatches via
`ices_log_string` with format `"%s\n"`.  Returns the (unchanged) state it
leaves behind together with the emitted events. -/
def ices_log (st : LogState) (msg : String) : LogState × List Event :=
  (st, ices_log_string st "%s\n" (truncFmt BUFSIZE msg))

/-- `ices_log` as compiled with `REDIRECT_LOGGING` (used inside
`ices_setup_output_redirects`): console-only dispatch. -/
def ices_log_redirect (msg : String) : List Event :=
  ices_log_string_redirect "%s\n" (truncFmt BUFSIZE msg)

/-- `ices_log_debug`: returns immediately (before even formatting) unless
`verbose` is set; otherwise formats and dispatches with format
`"DEBUG: %s\n"`. -/
def ices_log_debug (st : LogState) (msg : String) : LogState × List Event :=
  if !st.cfg.verbose then (st, [])
  else (st, ices_log_string st "DEBUG: %s\n" (truncFmt BUFSIZE msg))

/-- `ices_log_error_output`: formats once, records the result through
`ices_log_error("%s", buff)`, then dispatches the same buffer through
`ices_log_string("%s\n", buff)`. -/
def ices_log_error_output (st : LogState) (msg : String) : LogState × List Event :=
  let buff := truncFmt BUFSIZE msg
  let st1 := ices_log_error st (sprintf1 "%s" buff)
  (st1, ices_log_string st1 "%s\n" buff)

/-- `ices_get_logfile_name(filename, len)`: fails, recording
"Base directory is invalid", when `base_directory` is NULL or longer than
1016 characters; otherwise `snprintf`s `"%s/ices.log"` into the buffer.
Returns (C result, buffer contents after the call, state). -/
def ices_get_logfile_name (st : LogState) (filename : String) (len : Nat) :
    Int × String × LogState :=
  match st.cfg.base_directory with
  | none => (0, filename, ices_log_error st "Base directory is invalid")
  | some bd =>
    if bd.length > 1016 then
      (0, filename, ices_log_error st "Base directory is invalid")
    else
      (1, truncFmt len (sprintf1 "%s/ices.log" bd), st)

/-- Resolution of the filesystem calls made by `ices_log_open_logfile`:
the outcome of `fopen(path, "a")` per path, and the text that
`ices_util_strerror(errno, ...)` renders when it fails. -/
structure FsEnv where
  fopenResult : String → Option Handle
  errnoText : String

/-- `ices_log_open_logfile`: builds the log file name (failing if that
fails), `fopen`s it in append mode (recording the OS error text in
`lasterror` on failure), and on success stores the handle in
`ices_config.logfile`.  The local `namespace` buffer starts out with
unspecified contents, modelled as `""` (it is never read before being
written). -/
def ices_log_open_logfile (env : FsEnv) (st : LogState) : Int × LogState :=
  let g := ices_get_logfile_name st "" LOG_FILENAME_LEN
  if g.1 ≠ 1 then
    (0, g.2.2)
  else
    match env.fopenResult g.2.1 with
    | none =>
      (0, ices_log_error g.2.2
        (sprintfN "Error while opening %s, error: %s" [g.2.1, env.errnoText]))
    | some logfp =>
      (1, { g.2.2 with cfg := { g.2.2.cfg with logfile := some logfp } })

/-- `ices_log_close_logfile`: if a sink handle is present, hands it to the
external generic close helper `ices_util_fclose`; always returns 1.  Note
that the source does not reset `ices_config.logfile`. -/
def ices_log_close_logfile (st : LogState) : Int × LogState × List Event :=
  match st.cfg.logfile with
  | some h => (1, st, [Event.utilFclose h])
  | none => (1, st, [])

/-- `ices_log_close_pipe`: if a sink handle is present, `pclose`s it;
then resets `ices_config.logfile` to NULL and returns 1.  (Defined in the
source but never called.) -/
def ices_log_close_pipe (st : LogState) : Int × LogState × List Event :=
  ((1 : Int),
   { st with cfg := { st.cfg with logfile := none } },
   match st.cfg.logfile with
   | some h => [Event.pcloseEv h]
   | none => [])

/-- `ices_log_reopen_logfile`: calls `ices_log_close_logfile` (return
value ignored) and then returns the result of `ices_log_open_logfile`. -/
def ices_log_reopen_logfile (env : FsEnv) (st : LogState) :
    Int × LogState × List Event :=
  let c := ices_log_close_logfile st
  let o := ices_log_open_logfile env c.2.1
  (o.1, o.2, c.2.2)

/-- Resolution of the OS calls made by `ices_setup_output_redirects`:
the outcome of `popen(cmd, "w")` per command, and whether each of the two
`dup2` calls succeeds. -/
structure RedirectEnv where
  popenResult : String → Option Handle
  dup2StdoutOk : Bool
  dup2StderrOk : Bool

/-- `ices_setup_output_redirects` (the `REDIRECT_LOGGING` body): builds
the log file name (returning 0 if that fails), `popen`s
`tee -a '<name>'`, then `dup2`s the pipe onto stdout and stderr.  On a
failed stdout `dup2` the pipe is `pclose`d and a message is logged, but
execution falls through; on a failed stderr `dup2` the pipe is `pclose`d,
stdout is re-pointed at `/dev/tty` and a message is logged, and execution
again falls through.  Finally the previous sink is closed generically,
the pipe handle is stored as the sink, and 1 is returned. -/
def ices_setup_output_redirects (env : RedirectEnv) (st : LogState) :
    Int × LogState × List Event :=
  let g := ices_get_logfile_name st "" LOG_FILENAME_LEN
  if g.1 ≠ 1 then
    (0, g.2.2, [])
  else
    let cmd := sprintf1 "tee -a \x27%s\x27" g.2.1
    match env.popenResult cmd with
    | none =>
      (0, g.2.2, ices_log_redirect "can't create pipe")
    | some pipe =>
      let ev1 :=
        if env.dup2StdoutOk then [Event.dup2Stdout pipe]
        else Event.pcloseEv pipe :: ices_log_redirect "can't redirect stdout to pipe"
      let ev2 :=
        if env.dup2StderrOk then [Event.dup2Stderr pipe]
        else Event.pcloseEv pipe :: Event.freopenTty ::
          ices_log_redirect "can't redirect stderr to pipe"
      let c := ices_log_close_logfile g.2.2
      (1, { c.2.1 with cfg := { c.2.1.cfg with logfile := some pipe } },
       ev1 ++ ev2 ++ c.2.2)

/-- Following the spec's words for `reopen()`: "equivalent to `close()`
followed by `openFile()`" — run `ices_log_close_logfile`, then
`ices_log_open_logfile` on the resulting state, and report the open
call's result. -/
def closeThenOpenFile (env : FsEnv) (st : LogState) :
    Int × LogState × List Event :=
  let c := ices_log_close_logfile st
  let o := ices_log_open_logfile env c.2.1
  (o.1, o.2, c.2.2)

/-- The text carried by a stream-write event, if any. -/
def eventPayload : Event → Option String
  | .writeSink _ s => some s
  | .writeConsole s => some s
  | _ => none

/-- Resolution of the OS calls made by `ices_log_daemonize`: the outcome
of `freopen(name, "a", stdout)`, whether `fstat` on the old sink handle
succeeds, whether the `dup2` onto stderr succeeds, and the environment
for the final `ices_log_reopen_logfile` call. -/
structure DaemonEnv where
  freopenResult : String → Option Handle
  fstatOk : Handle → Bool
  dup2StderrOk : Bool
  fsEnv : FsEnv

/-- `ices_log_daemonize`: re-points stdin at `/dev/null`; builds the log
file name (returning early on failure); `freopen`s stdout onto the log
file; if an old sink handle exists and `fstat` succeeds on it, closes it
with `pclose` when the descriptor is a FIFO and `fclose` otherwise and
NULLs the slot; on `freopen` failure records the OS error and returns;
otherwise `dup2`s the new handle onto stderr (logging on failure), stores
the handle as the sink, re-points stdout and stderr at `/dev/null`, and
calls `ices_log_reopen_logfile`. -/
def ices_log_daemonize (env : DaemonEnv) (st : LogState) :
    LogState × List Event :=
  let g := ices_get_logfile_name st "" LOG_FILENAME_LEN
  if g.1 ≠ 1 then
    (g.2.2, [Event.stdinNull])
  else
    let logfpOpt := env.freopenResult g.2.1
    let stc :=
      match g.2.2.cfg.logfile with
      | some h =>
        if env.fstatOk h then
          ({ g.2.2 with cfg := { g.2.2.cfg with logfile := none } },
           [if h.isFifo then Event.pcloseEv h else Event.fcloseEv h])
        else (g.2.2, ([] : List Event))
      | none => (g.2.2, ([] : List Event))
    match logfpOpt with
    | none =>
      (ices_log_error stc.1
        (sprintfN "Error while opening %s, error: %s" [g.2.1, env.fsEnv.errnoText]),
       Event.stdinNull :: stc.2)
    | some logfp =>
      let ev2 :=
        if env.dup2StderrOk then [Event.dup2Stderr logfp]
        else (ices_log stc.1 "can't redirect stderr to pipe").2
      let st2 := { stc.1 with cfg := { stc.1.cfg with logfile := some logfp } }
      let r := ices_log_reopen_logfile env.fsEnv st2
      (r.2.1,
       Event.stdinNull :: stc.2 ++ ev2 ++ [Event.stdoutNull, Event.stderrNull] ++ r.2.2)

/-! ## General lemmas about the formatting primitives -/

/-- `"%s\n"` formatting appends a newline. -/
theorem sprintf1_info (s : String) : sprintf1 "%s\n" s = s ++ "\n" := by
  simp [sprintf1, sprintfN, substArgs, String.ext_iff, String.data_append]

/-- `"DEBUG: %s\n"` formatting adds the debug prefix and a newline. -/
theorem sprintf1_debug (s : String) :
    sprintf1 "DEBUG: %s\n" s = "DEBUG: " ++ s ++ "\n" := by
  simp [sprintf1, sprintfN, substArgs, String.ext_iff, String.data_append]

/-- `"%s"` formatting is the identity. -/
theorem sprintf1_id (s : String) : sprintf1 "%s" s = s := by
  simp [sprintf1, sprintfN, substArgs]

/-- `"%s/ices.log"` formatting appends the fixed suffix. -/
theorem sprintf1_path (s : String) :
    sprintf1 "%s/ices.log" s = s ++ "/ices.log" := by
  simp [sprintf1, sprintfN, substArgs, String.ext_iff, String.data_append]

/-- Buffer truncation is the identity on strings that fit. -/
theorem truncFmt_eq_of_le (n : Nat) (s : String) (h : s.length ≤ n - 1) :
    truncFmt n s = s := by
  apply String.ext
  exact List.take_of_length_le h

/-- `ices_get_logfile_name` on an invalid base directory: result 0, the
caller's buffer untouched, and only `lasterror` updated. -/
theorem getLogfileName_invalid (st : LogState) (filename : String) (len : Nat)
    (h : st.cfg.base_directory = none ∨
      ∃ bd, st.cfg.base_directory = some bd ∧ bd.length > 1016) :
    ices_get_logfile_name st filename len =
      (0, filename, ices_log_error st "Base directory is invalid") := by
  rcases h with h | ⟨bd, hbd, hlen⟩
  · simp [ices_get_logfile_name, h]
  · simp [ices_get_logfile_name, hbd, hlen]

/-- `ices_get_logfile_name` on a valid short base directory produces the
exact concatenation and leaves the state alone. -/
theorem getLogfileName_valid (st : LogState) (filename : String) (bd : String)
    (hbd : st.cfg.base_directory = some bd) (hlen : bd.length ≤ 1014) :
    ices_get_logfile_name st filename LOG_FILENAME_LEN =
      (1, bd ++ "/ices.log", st) := by
  have h1016 : ¬ bd.length > 1016 := by omega
  have hfit : (bd ++ "/ices.log").length ≤ LOG_FILENAME_LEN - 1 := by
    have h9 : ("/ices.log" : String).length = 9 := rfl
    simp [String.length_append, h9, LOG_FILENAME_LEN]
    omega
  simp [ices_get_logfile_name, hbd, h1016, sprintf1_path,
    truncFmt_eq_of_le _ _ hfit]

/-! ## Claims -/

/-- C5: for every environment and starting sink state,
`ices_log_reopen_logfile` produces exactly the same result, final state
and event trace as executing `ices_log_close_logfile` followed by
`ices_log_open_logfile` and returning the open call's result. -/
theorem C5_reopen_is_close_then_open (env : FsEnv) (st : LogState) :
    ices_log_reopen_logfile env st = closeThenOpenFile env st := rfl

/-- C9: `ices_log` and `ices_log_debug` never modify the last-error
slot: `ices_log_get_error` returns the same string before and after
either call, for every state and message. -/
theorem C9_info_debug_preserve_lasterror (st : LogState) (msg : String) :
    ices_log_get_error (ices_log st msg).1 = ices_log_get_error st ∧
    ices_log_get_error (ices_log_debug st msg).1 = ices_log_get_error st := by
  refine ⟨rfl, ?_⟩
  unfold ices_log_debug
  split <;> rfl

/-- C10: when the base directory is absent or longer than 1016
characters, `ices_get_logfile_name` returns 0 and leaves the
caller-supplied filename buffer exactly as it was: no partial path is
produced. -/
theorem C10_invalid_base_leaves_buffer (st : LogState) (filename : String)
    (len : Nat)
    (h : st.cfg.base_directory = none ∨
      ∃ bd, st.cfg.base_directory = some bd ∧ bd.length > 1016) :
    (ices_get_logfile_name st filename len).1 = 0 ∧
    (ices_get_logfile_name st filename len).2.1 = filename := by
  rw [getLogfileName_invalid st filename len h]
  exact ⟨rfl, rfl⟩

/-- Witness for C10: a NULL base directory with a concrete buffer. -/
theorem C10_invalid_base_leaves_buffer_w :
    (ices_get_logfile_name ⟨⟨none, false, false, none⟩, ""⟩ "keep" 1024).1 = 0 ∧
    (ices_get_logfile_name ⟨⟨none, false, false, none⟩, ""⟩ "keep" 1024).2.1 =
      "keep" :=
  C10_invalid_base_leaves_buffer ⟨⟨none, false, false, none⟩, ""⟩ "keep" 1024
    (Or.inl rfl)

/-- C4 (evaluation of the code at the failing input): closing an open
RegularFile sink hands the handle to the generic close helper but leaves
`ices_config.logfile` pointing at the just-closed handle rather than
setting it to NULL, so a second close re-closes the stale handle; only a
sink whose handle is already NULL gives the claimed no-op. -/
theorem C4_close_does_not_clear_handle :
    ices_log_close_logfile ⟨⟨some "/tmp", false, false, some ⟨3, false⟩⟩, ""⟩ =
      (1, ⟨⟨some "/tmp", false, false, some ⟨3, false⟩⟩, ""⟩,
       [Event.utilFclose ⟨3, false⟩]) ∧
    (ices_log_close_logfile
        (ices_log_close_logfile
          ⟨⟨some "/tmp", false, false, some ⟨3, false⟩⟩, ""⟩).2.1).2.2 =
      [Event.utilFclose ⟨3, false⟩] ∧
    ices_log_close_logfile ⟨⟨some "/tmp", false, false, none⟩, ""⟩ =
      (1, ⟨⟨some "/tmp", false, false, none⟩, ""⟩, []) :=
  ⟨rfl, rfl, rfl⟩

/-- C2 (evaluation of the code at the failing input): on a sink whose
handle is a FIFO (a PipeTee sink), `ices_log_close_logfile` emits a
generic `ices_util_fclose` and no `pclose`; the kind dispatch the claim
describes exists only in `ices_log_daemonize`'s teardown of the old sink,
which does `pclose` the FIFO handle. -/
theorem C2_close_on_pipe_is_generic :
    (ices_log_close_logfile ⟨⟨some "/tmp", true, false, some ⟨7, true⟩⟩, ""⟩).2.2 =
      [Event.utilFclose ⟨7, true⟩] ∧
    Event.pcloseEv ⟨7, true⟩ ∉
      (ices_log_close_logfile ⟨⟨some "/tmp", true, false, some ⟨7, true⟩⟩, ""⟩).2.2 ∧
    Event.pcloseEv ⟨7, true⟩ ∈
      (ices_log_daemonize
        ⟨fun _ => some ⟨8, false⟩, fun _ => true, true,
         ⟨fun _ => some ⟨9, false⟩, "E"⟩⟩
        ⟨⟨some "/tmp", true, false, some ⟨7, true⟩⟩, ""⟩).2 :=
  ⟨rfl, by decide, by decide⟩

/-- C3 (evaluation of the code at the failing input): when `popen`
succeeds but the `dup2` of stdout onto the pipe fails,
`ices_setup_output_redirects` does `pclose` the pipe, but it records
nothing in the last-error slot (`lasterror` keeps its previous value), it
keeps going (here the stderr `dup2` also fails, re-closing the pipe), it
installs the already-closed pipe handle as the active sink, and it
returns 1, not a failure indicator. -/
theorem C3_stdout_redirect_failure_continues :
    ices_setup_output_redirects ⟨fun _ => some ⟨5, true⟩, false, false⟩
        ⟨⟨some "/tmp/icestest", false, false, none⟩, "prev"⟩ =
      (1, ⟨⟨some "/tmp/icestest", false, false, some ⟨5, true⟩⟩, "prev"⟩,
       [Event.pcloseEv ⟨5, true⟩,
        Event.writeConsole "can't redirect stdout to pipe\n",
        Event.pcloseEv ⟨5, true⟩, Event.freopenTty,
        Event.writeConsole "can't redirect stderr to pipe\n"]) := by
  decide

/-- C1 counterexample: with `base_directory = ""` — empty but present —
the validation passes, both open operations succeed (the claim demands
they fail), and the last-error slot stays empty rather than holding
"Base directory is invalid". -/
theorem C1_empty_base_directory_not_rejected :
    (ices_log_open_logfile ⟨fun _ => some ⟨1, false⟩, "E"⟩
        ⟨⟨some "", false, false, none⟩, ""⟩).1 = 1 ∧
    (ices_log_open_logfile ⟨fun _ => some ⟨1, false⟩, "E"⟩
        ⟨⟨some "", false, false, none⟩, ""⟩).2.lasterror = "" ∧
    (ices_setup_output_redirects ⟨fun _ => some ⟨2, true⟩, true, true⟩
        ⟨⟨some "", false, false, none⟩, ""⟩).1 = 1 ∧
    (ices_setup_output_redirects ⟨fun _ => some ⟨2, true⟩, true, true⟩
        ⟨⟨some "", false, false, none⟩, ""⟩).2.1.lasterror = "" :=
  ⟨rfl, rfl, rfl, rfl⟩

/-- C1 (amended): when `base_directory` is absent (NULL) or longer than
1016 characters, `ices_log_open_logfile` and
`ices_setup_output_redirects` both return 0, and afterwards
`ices_log_get_error` returns "Base directory is invalid". -/
theorem C1_invalid_base_directory_fails (st : LogState) (envF : FsEnv)
    (envR : RedirectEnv)
    (h : st.cfg.base_directory = none ∨
      ∃ bd, st.cfg.base_directory = some bd ∧ bd.length > 1016) :
    (ices_log_open_logfile envF st).1 = 0 ∧
    ices_log_get_error (ices_log_open_logfile envF st).2 =
      "Base directory is invalid" ∧
    (ices_setup_output_redirects envR st).1 = 0 ∧
    ices_log_get_error (ices_setup_output_redirects envR st).2.1 =
      "Base directory is invalid" := by
  have hg := getLogfileName_invalid st "" LOG_FILENAME_LEN h
  have hmsg : truncFmt BUFSIZE "Base directory is invalid" =
      "Base directory is invalid" := truncFmt_eq_of_le _ _ (by decide)
  refine ⟨?_, ?_, ?_, ?_⟩ <;>
    simp [ices_log_open_logfile, ices_setup_output_redirects, hg,
      ices_log_get_error, ices_log_error, hmsg]

/-- Witness for C1 (amended): a NULL base directory. -/
theorem C1_invalid_base_directory_fails_w :
    (ices_log_open_logfile ⟨fun _ => none, "E"⟩
        ⟨⟨none, true, false, none⟩, ""⟩).1 = 0 ∧
    ices_log_get_error (ices_log_open_logfile ⟨fun _ => none, "E"⟩
        ⟨⟨none, true, false, none⟩, ""⟩).2 = "Base directory is invalid" ∧
    (ices_setup_output_redirects ⟨fun _ => none, true, true⟩
        ⟨⟨none, true, false, none⟩, ""⟩).1 = 0 ∧
    ices_log_get_error (ices_setup_output_redirects ⟨fun _ => none, true, true⟩
        ⟨⟨none, true, false, none⟩, ""⟩).2.1 = "Base directory is invalid" :=
  C1_invalid_base_directory_fails ⟨⟨none, true, false, none⟩, ""⟩
    ⟨fun _ => none, "E"⟩ ⟨fun _ => none, true, true⟩ (Or.inl rfl)

set_option maxRecDepth 10000 in
/-- C6 counterexample: a present, non-empty base directory of 1015
characters passes the 1016-character validation, but the constructed path
is the `snprintf` truncation to 1023 characters, not the full
concatenation `base_directory ++ "/ices.log"` (which has 1024
characters). -/
theorem C6_base_1015_truncated :
    (String.mk (List.replicate 1015 'a')).length ≤ 1016 ∧
    String.mk (List.replicate 1015 'a') ≠ "" ∧
    (ices_get_logfile_name
        ⟨⟨some (String.mk (List.replicate 1015 'a')), false, false, none⟩, ""⟩
        "" LOG_FILENAME_LEN).1 = 1 ∧
    (ices_get_logfile_name
        ⟨⟨some (String.mk (List.replicate 1015 'a')), false, false, none⟩, ""⟩
        "" LOG_FILENAME_LEN).2.1 ≠
      String.mk (List.replicate 1015 'a') ++ "/ices.log" := by
  decide

/-- C6 (amended): for every present, non-empty base directory of at most
1014 characters, the constructed log path is exactly
`base_directory ++ "/ices.log"`, and `ices_log_open_logfile` opens (in
append mode) exactly that path and stores the resulting handle. -/
theorem C6_logfile_name_exact (st : LogState) (bd : String) (env : FsEnv)
    (hbd : st.cfg.base_directory = some bd) (hne : bd ≠ "")
    (hlen : bd.length ≤ 1014) :
    ices_get_logfile_name st "" LOG_FILENAME_LEN = (1, bd ++ "/ices.log", st) ∧
    ∀ h, env.fopenResult (bd ++ "/ices.log") = some h →
      ices_log_open_logfile env st =
        (1, { st with cfg := { st.cfg with logfile := some h } }) := by
  have hg := getLogfileName_valid st "" bd hbd hlen
  refine ⟨hg, fun h hfo => ?_⟩
  simp [ices_log_open_logfile, hg, hfo]

/-- Witness for C6 (amended): a concrete short base directory. -/
theorem C6_logfile_name_exact_w :
    ices_get_logfile_name ⟨⟨some "/tmp/icestest", false, false, none⟩, ""⟩ ""
        LOG_FILENAME_LEN =
      (1, "/tmp/icestest" ++ "/ices.log",
       ⟨⟨some "/tmp/icestest", false, false, none⟩, ""⟩) ∧
    ices_log_open_logfile ⟨fun _ => some ⟨1, false⟩, "E"⟩
        ⟨⟨some "/tmp/icestest", false, false, none⟩, ""⟩ =
      (1, ⟨⟨some "/tmp/icestest", false, false, some ⟨1, false⟩⟩, ""⟩) :=
  ⟨(C6_logfile_name_exact ⟨⟨some "/tmp/icestest", false, false, none⟩, ""⟩
      "/tmp/icestest" ⟨fun _ => some ⟨1, false⟩, "E"⟩ rfl (by decide)
      (by decide)).1,
   (C6_logfile_name_exact ⟨⟨some "/tmp/icestest", false, false, none⟩, ""⟩
      "/tmp/icestest" ⟨fun _ => some ⟨1, false⟩, "E"⟩ rfl (by decide)
      (by decide)).2 ⟨1, false⟩ rfl⟩

/-- C7: with verbose mode off, `ices_log_debug` returns the state
untouched and emits nothing (it is a strict no-op); and every stream
write it ever emits carries the "DEBUG: " prefix. -/
theorem C7_debug_gate (st : LogState) (msg : String) :
    (st.cfg.verbose = false → ices_log_debug st msg = (st, [])) ∧
    ∀ e ∈ (ices_log_debug st msg).2, ∃ rest,
      eventPayload e = some ("DEBUG: " ++ rest) := by
  constructor
  · intro hv
    simp [ices_log_debug, hv]
  · intro e he
    refine ⟨truncFmt BUFSIZE msg ++ "\n", ?_⟩
    cases hv : st.cfg.verbose <;> cases hl : st.cfg.logfile <;>
        cases hd : st.cfg.daemon <;>
      simp [ices_log_debug, hv, hl, hd, ices_log_string, sprintf1_debug] at he <;>
      (try rcases he with rfl | rfl) <;>
      simp [eventPayload, String.append_assoc]

/-- Witness for C7: a quiet state where debug is a no-op, and a verbose
state whose console write is debug-prefixed. -/
theorem C7_debug_gate_w :
    ices_log_debug ⟨⟨some "/tmp", false, false, none⟩, "x"⟩ "ping" =
      (⟨⟨some "/tmp", false, false, none⟩, "x"⟩, []) ∧
    (∃ rest, eventPayload (Event.writeConsole "DEBUG: ping\n") =
      some ("DEBUG: " ++ rest)) :=
  ⟨(C7_debug_gate ⟨⟨some "/tmp", false, false, none⟩, "x"⟩ "ping").1 rfl,
   (C7_debug_gate ⟨⟨some "/tmp", false, true, none⟩, "x"⟩ "ping").2
      (Event.writeConsole "DEBUG: ping\n") (by decide)⟩

/-- C8: for every message that fits the format buffer,
`ices_log_error_output` leaves the last-error slot holding exactly the
message (so `ices_log_get_error` returns it), and when a sink is active
the same message followed by a newline is written to the sink's
stream. -/
theorem C8_error_output_records_and_dispatches (st : LogState) (msg : String)
    (hlen : msg.length ≤ BUFSIZE - 1) :
    ices_log_get_error (ices_log_error_output st msg).1 = msg ∧
    ∀ h, st.cfg.logfile = some h →
      Event.writeSink h (msg ++ "\n") ∈ (ices_log_error_output st msg).2 := by
  have ht : truncFmt BUFSIZE msg = msg := truncFmt_eq_of_le _ _ hlen
  constructor
  · simp [ices_log_error_output, ices_log_get_error, ices_log_error, ht,
      sprintf1_id]
  · intro h hl
    simp [ices_log_error_output, ices_log_string, ices_log_error, ht,
      sprintf1_id, sprintf1_info, hl]

/-- Witness for C8: a concrete open sink and message. -/
theorem C8_error_output_records_and_dispatches_w :
    ices_log_get_error
        (ices_log_error_output
          ⟨⟨some "/tmp", false, false, some ⟨2, false⟩⟩, ""⟩ "boom").1 =
      "boom" ∧
    Event.writeSink ⟨2, false⟩ ("boom" ++ "\n") ∈
      (ices_log_error_output
        ⟨⟨some "/tmp", false, false, some ⟨2, false⟩⟩, ""⟩ "boom").2 :=
  ⟨(C8_error_output_records_and_dispatches
      ⟨⟨some "/tmp", false, false, some ⟨2, false⟩⟩, ""⟩ "boom" (by decide)).1,
   (C8_error_output_records_and_dispatches
      ⟨⟨some "/tmp", false, false, some ⟨2, false⟩⟩, ""⟩ "boom" (by decide)).2
      ⟨2, false⟩ rfl⟩
